import Mathlib

/-!
# Shallow embedding of the cart domain model

Embedding of `src/libs/cart-shared/src/domain` of the
`ddd-serverless-api-blueprint` repository:

* `money.vo.ts`      → `Money` and its operations
* `quantity.vo.ts`   → `Quantity` and its operations
* `product-id.vo.ts` → `ProductId`
* `cart-item.entity.ts` → `CartItem`
* `cart.entity.ts`   → `CartProps` and the `Cart.*` operations
* `domain.error.ts` / `cart.errors.ts` → `Err` and the error factories
* `cart.types.ts`    → `Currency`, `CartStatus`, `DOMAIN_CONSTANTS`

Modelling conventions, each noted where it applies:

* TypeScript exceptions become `Except Err` results; a thrown error is
  `Except.error`, a normal return is `Except.ok`.  All objects are
  immutable in the source, so "the receiver is unchanged on failure" is
  inherent in the embedding (operations are pure functions).
* JavaScript numbers holding exact integers (cents, quantities, counts)
  are embedded as `Int`/`Nat`; decimal amounts entering `Money.from` and
  `Money.multiply` are embedded as `ℚ` with `round` for `Math.round`
  (round half up, identical on the rationals arising here).
  `Number.isInteger` guards on values that the embedding already types as
  `Int` are therefore always-true and noted where they occur.
* `Date` timestamps (`createdAt`, `updatedAt`) are elided from the state:
  no claim depends on them, and `new Date()` is nondeterministic.
* Error `context` payloads (heterogeneous records) are elided; the
  machine-readable `code` and the `message` are kept.
-/

/-- `Currency` from `cart.types.ts`: `'EUR' | 'USD' | 'GBP'`. -/
inductive Currency where
  | EUR
  | USD
  | GBP
deriving DecidableEq

/-- String form of a currency, as it appears in TS template literals. -/
def Currency.code : Currency → String
  | .EUR => "EUR"
  | .USD => "USD"
  | .GBP => "GBP"

/-- `CartStatus` from `cart.types.ts`: `'ACTIVE' | 'ABANDONED' | 'CHECKED_OUT'`. -/
inductive CartStatus where
  | ACTIVE
  | ABANDONED
  | CHECKED_OUT
deriving DecidableEq

/-- String form of a cart status, as it appears in TS template literals. -/
def CartStatus.code : CartStatus → String
  | .ACTIVE => "ACTIVE"
  | .ABANDONED => "ABANDONED"
  | .CHECKED_OUT => "CHECKED_OUT"

namespace DOMAIN_CONSTANTS

/-- `DOMAIN_CONSTANTS.MAX_CART_ITEMS` from `cart.types.ts`. -/
def MAX_CART_ITEMS : Nat := 100

/-- `DOMAIN_CONSTANTS.MAX_ITEM_QUANTITY` from `cart.types.ts`. -/
def MAX_ITEM_QUANTITY : Int := 999

/-- `DOMAIN_CONSTANTS.DEFAULT_CURRENCY` from `cart.types.ts`. -/
def DEFAULT_CURRENCY : Currency := .EUR

/-- `DOMAIN_CONSTANTS.SUPPORTED_CURRENCIES` from `cart.types.ts`. -/
def SUPPORTED_CURRENCIES : List Currency := [.EUR, .USD, .GBP]

end DOMAIN_CONSTANTS

/-- Thrown errors.  `domainErr` embeds the `DomainError` subclasses of
`domain.error.ts` (machine-readable `code` plus `message`; the structured
`context` record is elided).  `plainErr` embeds a bare JS
`throw new Error(message)`, which carries no code. -/
inductive Err where
  | domainErr (code : String) (message : String)
  | plainErr (message : String)
deriving DecidableEq

deriving instance DecidableEq for Except

/-- The machine-readable code of an error, when it has one: every
`DomainError` subclass has one, a plain `Error` has none. -/
def Err.code? : Err → Option String
  | .domainErr c _ => some c
  | .plainErr _ => none

/-- `InvalidCartError` from `cart.errors.ts` (code `INVALID_CART`). -/
def InvalidCartError (message : String) : Err :=
  .domainErr "INVALID_CART" message

/-- `InvalidCartItemError` from `cart.errors.ts` (code `INVALID_CART_ITEM`). -/
def InvalidCartItemError (message : String) : Err :=
  .domainErr "INVALID_CART_ITEM" message

/-- `InvalidQuantityError` from `cart.errors.ts` (code `INVALID_QUANTITY`). -/
def InvalidQuantityError (quantity : Int) : Err :=
  .domainErr "INVALID_QUANTITY"
    ("Invalid quantity: " ++ toString quantity ++ ". Must be a positive integer.")

/-- `InvalidMoneyError` from `cart.errors.ts` (code `INVALID_MONEY`).  The TS
message interpolates `amountInCents / 100` through JS float formatting; the
embedding renders the cents value directly, as no claim inspects this
message. -/
def InvalidMoneyError (amountInCents : Int) (currency : Currency) : Err :=
  .domainErr "INVALID_MONEY"
    ("Invalid money: " ++ toString amountInCents ++ " cents " ++ currency.code ++
      ". Amount must be non-negative.")

/-- `MaxCartItemsExceededError` from `cart.errors.ts`
(code `MAX_CART_ITEMS_EXCEEDED`). -/
def MaxCartItemsExceededError (maxItems : Nat) : Err :=
  .domainErr "MAX_CART_ITEMS_EXCEEDED"
    ("Cannot add more items. Maximum " ++ toString maxItems ++ " items allowed per cart.")

/-- `CartNotActiveError` from `cart.errors.ts` (code `CART_NOT_ACTIVE`).  The
TS message wraps the interpolated values in single quotes; the quote
characters are elided here. -/
def CartNotActiveError (cartId : String) (status : CartStatus) : Err :=
  .domainErr "CART_NOT_ACTIVE"
    ("Cannot modify cart " ++ cartId ++ " with status " ++ status.code ++
      ". Cart must be active.")

/-- `String.prototype.trim`, modelled on the character list (Lean's own
`String.trim` is byte-indexed and does not reduce in the kernel): drop
whitespace from both ends.  The JS whitespace set also contains exotic
Unicode spaces; no claim involves them. -/
def strTrim (s : String) : String :=
  String.mk (((s.data.dropWhile Char.isWhitespace).reverse.dropWhile Char.isWhitespace).reverse)

/-- `Money` from `money.vo.ts`: amount stored as integer minor units
(`_amountInCents`) plus a currency.  The TS class establishes
`0 ≤ cents` through its validating constructor; here that fact is carried
as a hypothesis (`MoneyValid`) where a theorem needs it. -/
structure Money where
  cents : Int
  currency : Currency
deriving DecidableEq

/-- The class invariant the TS `Money` constructor establishes: a
non-negative integer amount (integrality is inherent in `Int`) in a
supported currency (all `Currency` values are supported). -/
def MoneyValid (m : Money) : Prop := 0 ≤ m.cents

/-- `Money.validate` from `money.vo.ts`.  The `Number.isInteger` guard is
always true on `Int` inputs and is subsumed by the type. -/
def Money.validate (amountInCents : Int) (currency : Currency) : Except Err Unit :=
  if amountInCents < 0 then
    .error (InvalidMoneyError amountInCents currency)
  else if currency ∉ DOMAIN_CONSTANTS.SUPPORTED_CURRENCIES then
    .error (InvalidMoneyError amountInCents currency)
  else
    .ok ()

/-- `Money.fromCents` from `money.vo.ts`: the private constructor runs
`Money.validate` on its arguments. -/
def Money.fromCents (cents : Int) (currency : Currency) : Except Err Money := do
  Money.validate cents currency
  pure { cents := cents, currency := currency }

/-- `Money.from` from `money.vo.ts` (`from` is a Lean keyword, hence the
name): `Math.round(amount * 100)` then the validating constructor. -/
def Money.fromDecimal (amount : ℚ) (currency : Currency) : Except Err Money :=
  Money.fromCents (round (amount * 100)) currency

/-- `Money.zero` from `money.vo.ts`.  The constructor validation always
succeeds at amount `0` (see `Money.validate_zero`), so the embedding
returns the value directly, as TS callers rely on. -/
def Money.zero (currency : Currency) : Money :=
  { cents := 0, currency := currency }

/-- `Money.ensureSameCurrency` from `money.vo.ts`: throws a plain JS
`Error` (not a `DomainError`) when the currencies differ. -/
def Money.ensureSameCurrency (m other : Money) : Except Err Unit :=
  if m.currency ≠ other.currency then
    .error (.plainErr
      ("Cannot operate on different currencies: " ++ m.currency.code ++
        " and " ++ other.currency.code))
  else
    .ok ()

/-- `Money.add` from `money.vo.ts`. -/
def Money.add (m other : Money) : Except Err Money := do
  m.ensureSameCurrency other
  Money.fromCents (m.cents + other.cents) m.currency

/-- `Money.subtract` from `money.vo.ts`. -/
def Money.subtract (m other : Money) : Except Err Money := do
  m.ensureSameCurrency other
  Money.fromCents (m.cents - other.cents) m.currency

/-- `Money.multiply` from `money.vo.ts`: `Math.round(cents * factor)` then
the validating constructor. -/
def Money.multiply (m : Money) (factor : ℚ) : Except Err Money :=
  Money.fromCents (round ((m.cents : ℚ) * factor)) m.currency

/-- `Money.isGreaterThan` from `money.vo.ts`. -/
def Money.isGreaterThan (m other : Money) : Except Err Bool := do
  m.ensureSameCurrency other
  pure (decide (other.cents < m.cents))

/-- `Money.isLessThan` from `money.vo.ts`. -/
def Money.isLessThan (m other : Money) : Except Err Bool := do
  m.ensureSameCurrency other
  pure (decide (m.cents < other.cents))

/-- `Money.isZero` from `money.vo.ts`. -/
def Money.isZero (m : Money) : Bool :=
  m.cents == 0

/-- `Money.equals` from `money.vo.ts`: value comparison, never throws
(hence a plain `Bool`, not an `Except`). -/
def Money.equals (m other : Money) : Bool :=
  m.cents == other.cents && m.currency == other.currency

/-- `Money.amount` getter from `money.vo.ts`: `_amountInCents / 100` in
major units. -/
def Money.amount (m : Money) : ℚ :=
  (m.cents : ℚ) / 100

/-- `Quantity` from `quantity.vo.ts`.  The TS class establishes
`1 ≤ value ≤ 999` through its validating constructor; here that fact is
carried as a hypothesis (`QuantityValid`) where a theorem needs it. -/
structure Quantity where
  value : Int
deriving DecidableEq

/-- The class invariant the TS `Quantity` constructor establishes. -/
def QuantityValid (q : Quantity) : Prop :=
  1 ≤ q.value ∧ q.value ≤ DOMAIN_CONSTANTS.MAX_ITEM_QUANTITY

/-- `Quantity.validate` from `quantity.vo.ts`.  The `Number.isInteger`
guard is always true on `Int` inputs and is subsumed by the type. -/
def Quantity.validate (value : Int) : Except Err Unit :=
  if value ≤ 0 then
    .error (InvalidQuantityError value)
  else if value > DOMAIN_CONSTANTS.MAX_ITEM_QUANTITY then
    .error (InvalidQuantityError value)
  else
    .ok ()

/-- `Quantity.from` from `quantity.vo.ts` (`from` is a Lean keyword,
hence the name). -/
def Quantity.fromVal (value : Int) : Except Err Quantity := do
  Quantity.validate value
  pure { value := value }

/-- `Quantity.add` from `quantity.vo.ts`: revalidates the sum. -/
def Quantity.add (q other : Quantity) : Except Err Quantity :=
  Quantity.fromVal (q.value + other.value)

/-- `Quantity.subtract` from `quantity.vo.ts`: revalidates the difference. -/
def Quantity.subtract (q other : Quantity) : Except Err Quantity :=
  Quantity.fromVal (q.value - other.value)

/-- `ProductId` from `product-id.vo.ts`: a branded string.  The format
regex `[A-Z0-9-]{3,50}` of `ProductId.from` is not modelled: no claim
depends on the id format, only on id equality. -/
structure ProductId where
  value : String
deriving DecidableEq

/-- `ProductId.equals` from `product-id.vo.ts`: value equality. -/
def ProductId.equals (a b : ProductId) : Bool :=
  a.value == b.value

/-- `CartItemProps` from `cart-item.entity.ts`. -/
structure CartItemProps where
  productId : ProductId
  productName : String
  quantity : Quantity
  unitPrice : Money
deriving DecidableEq

/-- A `CartItem` holds exactly the (validated) props; the TS class wraps
them behind a validating constructor. -/
abbrev CartItem := CartItemProps

/-- The validity facts the TS `CartItem` constructor establishes (the
acceptance condition of `CartItem.validate`, plus the value-object
invariants of the wrapped `Quantity` and `Money`). -/
def CartItemValid (item : CartItem) : Prop :=
  (strTrim item.productName).length ≠ 0 ∧
  item.productName.length ≤ 200 ∧
  item.unitPrice.cents ≠ 0 ∧
  QuantityValid item.quantity ∧
  MoneyValid item.unitPrice

/-- `CartItem.validate` from `cart-item.entity.ts`.  The TS guard
`!props.productName || props.productName.trim().length === 0` is
equivalent to the trimmed length being zero, since the only falsy string
is the empty string, whose trim is itself. -/
def CartItem.validate (props : CartItemProps) : Except Err Unit :=
  if (strTrim props.productName).length == 0 then
    .error (InvalidCartItemError "Product name cannot be empty")
  else if props.productName.length > 200 then
    .error (InvalidCartItemError "Product name cannot exceed 200 characters")
  else if props.unitPrice.isZero then
    .error (InvalidCartItemError "Unit price must be greater than zero")
  else
    .ok ()

/-- `CartItem.create` from `cart-item.entity.ts`: the private constructor
runs `CartItem.validate`. -/
def CartItem.create (props : CartItemProps) : Except Err CartItem := do
  CartItem.validate props
  pure props

/-- `CartItem.lineTotal` from `cart-item.entity.ts`:
`unitPrice.multiply(quantity.value)`. -/
def CartItem.lineTotal (item : CartItem) : Except Err Money :=
  item.unitPrice.multiply (item.quantity.value : ℚ)

/-- `CartItem.updateQuantity` from `cart-item.entity.ts`: rebuilds the
item through the validating constructor. -/
def CartItem.updateQuantity (item : CartItem) (newQuantity : Quantity) : Except Err CartItem :=
  CartItem.create { item with quantity := newQuantity }

/-- `CartItem.increaseQuantity` from `cart-item.entity.ts`. -/
def CartItem.increaseQuantity (item : CartItem) (amount : Quantity) : Except Err CartItem := do
  let newQuantity ← item.quantity.add amount
  item.updateQuantity newQuantity

/-- `CartItem.decreaseQuantity` from `cart-item.entity.ts`. -/
def CartItem.decreaseQuantity (item : CartItem) (amount : Quantity) : Except Err CartItem := do
  let newQuantity ← item.quantity.subtract amount
  item.updateQuantity newQuantity

/-- `CartProps` from `cart.entity.ts`.  `cartId` is embedded as the
underlying string (the `CartId` value object only wraps a validated UUID
string and no claim depends on its format); the `createdAt`/`updatedAt`
`Date` fields are elided (see the module docstring). -/
structure CartProps where
  cartId : String
  userId : String
  items : List CartItem
  status : CartStatus
  currency : Currency
deriving DecidableEq

namespace Cart

/-- `Cart.validate` from `cart.entity.ts`: userId non-blank, at most
`MAX_CART_ITEMS` items, every item currency equal to the cart currency.
The TS guard `!props.userId || props.userId.trim().length === 0` is
equivalent to the trimmed length being zero (the only falsy string is the
empty string).  The TS messages interpolate context values; the static
message text is kept. -/
def validate (props : CartProps) : Except Err Unit :=
  if (strTrim props.userId).length == 0 then
    .error (InvalidCartError "User ID is required")
  else if props.items.length > DOMAIN_CONSTANTS.MAX_CART_ITEMS then
    .error (InvalidCartError
      ("Cart cannot have more than " ++ toString DOMAIN_CONSTANTS.MAX_CART_ITEMS ++ " items"))
  else if (props.items.filter (fun item => item.unitPrice.currency != props.currency)).length > 0 then
    .error (InvalidCartError "All items must have the same currency as the cart")
  else
    .ok ()

/-- The private `Cart` constructor from `cart.entity.ts`: every `Cart`
value is born through `Cart.validate`. -/
def construct (props : CartProps) : Except Err CartProps := do
  validate props
  pure props

/-- `Cart.create` from `cart.entity.ts`.  `CartId.generate()` is
nondeterministic (UUID v4), so the fresh id is a parameter of the
embedding; `createdAt = updatedAt = now` is elided with the timestamps. -/
def create (cartId : String) (userId : String) (currency : Option Currency) :
    Except Err CartProps :=
  construct
    { cartId := cartId
      userId := userId
      items := []
      status := .ACTIVE
      currency := currency.getD DOMAIN_CONSTANTS.DEFAULT_CURRENCY }

/-- `Cart.fromProps` from `cart.entity.ts`. -/
def fromProps (props : CartProps) : Except Err CartProps :=
  construct props

/-- `Cart.isActive` getter. -/
def isActive (cart : CartProps) : Bool :=
  cart.status == .ACTIVE

/-- `Cart.isEmpty` getter. -/
def isEmpty (cart : CartProps) : Bool :=
  cart.items.length == 0

/-- `Cart.itemCount` getter: sum of all item quantities. -/
def itemCount (cart : CartProps) : Int :=
  cart.items.foldl (fun sum item => sum + item.quantity.value) 0

/-- `Cart.total` getter: `Money.zero` when empty, else
`reduce((sum, item) => sum.add(item.lineTotal), Money.zero(currency))`. -/
def total (cart : CartProps) : Except Err Money :=
  if cart.items.length == 0 then
    .ok (Money.zero cart.currency)
  else
    cart.items.foldlM
      (fun sum item => do
        let lt ← item.lineTotal
        sum.add lt)
      (Money.zero cart.currency)

/-- `Cart.ensureActive` from `cart.entity.ts`. -/
def ensureActive (cart : CartProps) : Except Err Unit :=
  if ¬ isActive cart then
    .error (CartNotActiveError cart.cartId cart.status)
  else
    .ok ()

/-- `Cart.withUpdatedItems` from `cart.entity.ts`: rebuild through the
validating constructor with the new item list (`updatedAt` refresh
elided with the timestamps). -/
def withUpdatedItems (cart : CartProps) (newItems : List CartItem) : Except Err CartProps :=
  construct { cart with items := newItems }

/-- `Array.prototype.findIndex`, as an `Option Nat` (TS returns `-1` for
"not found"): index of the first element satisfying the predicate. -/
def findIndexOpt {α : Type} (p : α → Bool) : List α → Option Nat
  | [] => none
  | x :: xs => if p x then some 0 else (findIndexOpt p xs).map (· + 1)

/-- A stand-in for the TS non-null assertion `items[index]!`: `getD` with
an arbitrary default.  Every use is at an index produced by
`findIndexOpt`, which is always in range. -/
def dummyItem : CartItem :=
  { productId := { value := "" }
    productName := ""
    quantity := { value := 0 }
    unitPrice := { cents := 0, currency := .EUR } }

/-- `Cart.addItem` from `cart.entity.ts`.  The TS merge writes
`[...slice(0, i), merged, ...slice(i + 1)]`, embedded as
`take i ++ [merged] ++ drop (i + 1)`; the append path is literal. -/
def addItem (cart : CartProps) (itemProps : CartItemProps) : Except Err CartProps := do
  ensureActive cart
  if itemProps.unitPrice.currency ≠ cart.currency then
    throw (InvalidCartError "Item currency must match cart currency")
  else do
    let newItem ← CartItem.create itemProps
    match findIndexOpt (fun item => item.productId.equals newItem.productId) cart.items with
    | some existingItemIndex => do
        let existingItem := cart.items.getD existingItemIndex dummyItem
        let mergedItem ← existingItem.increaseQuantity newItem.quantity
        withUpdatedItems cart
          (cart.items.take existingItemIndex ++ [mergedItem] ++
            cart.items.drop (existingItemIndex + 1))
    | none =>
        if cart.items.length ≥ DOMAIN_CONSTANTS.MAX_CART_ITEMS then
          throw (MaxCartItemsExceededError DOMAIN_CONSTANTS.MAX_CART_ITEMS)
        else
          withUpdatedItems cart (cart.items ++ [newItem])

/-- `Cart.removeItem` from `cart.entity.ts`: `[...slice(0, i),
...slice(i + 1)]`, embedded as `take i ++ drop (i + 1)`. -/
def removeItem (cart : CartProps) (productId : ProductId) : Except Err CartProps := do
  ensureActive cart
  match findIndexOpt (fun item => item.productId.equals productId) cart.items with
  | none => throw (InvalidCartError "Item not found in cart")
  | some itemIndex =>
      withUpdatedItems cart (cart.items.take itemIndex ++ cart.items.drop (itemIndex + 1))

/-- `Cart.updateItemQuantity` from `cart.entity.ts`. -/
def updateItemQuantity (cart : CartProps) (productId : ProductId) (newQuantity : Quantity) :
    Except Err CartProps := do
  ensureActive cart
  match findIndexOpt (fun item => item.productId.equals productId) cart.items with
  | none => throw (InvalidCartError "Item not found in cart")
  | some itemIndex => do
      let updatedItem ← (cart.items.getD itemIndex dummyItem).updateQuantity newQuantity
      withUpdatedItems cart
        (cart.items.take itemIndex ++ [updatedItem] ++ cart.items.drop (itemIndex + 1))

/-- `Cart.clearItems` from `cart.entity.ts`. -/
def clearItems (cart : CartProps) : Except Err CartProps := do
  ensureActive cart
  withUpdatedItems cart []

/-- `Cart.abandon` from `cart.entity.ts`: rebuilds with status
`ABANDONED` through the validating constructor.  Note: no status guard. -/
def abandon (cart : CartProps) : Except Err CartProps :=
  construct { cart with status := .ABANDONED }

/-- `Cart.checkout` from `cart.entity.ts`: rejects an empty cart, then
rebuilds with status `CHECKED_OUT`.  Note: no status guard. -/
def checkout (cart : CartProps) : Except Err CartProps :=
  if isEmpty cart then
    .error (InvalidCartError "Cannot checkout empty cart")
  else
    construct { cart with status := .CHECKED_OUT }

end Cart

/-- The aggregate invariant of the spec, phrased exactly as the
acceptance condition of `Cart.validate`: userId non-blank, at most 100
items, every item currency equal to the cart currency. -/
def CartInvariant (props : CartProps) : Prop :=
  (strTrim props.userId).length ≠ 0 ∧
  props.items.length ≤ DOMAIN_CONSTANTS.MAX_CART_ITEMS ∧
  ∀ item ∈ props.items, item.unitPrice.currency = props.currency

instance (props : CartProps) : Decidable (CartInvariant props) := by
  unfold CartInvariant
  infer_instance

instance (q : Quantity) : Decidable (QuantityValid q) := by
  unfold QuantityValid
  infer_instance

instance (m : Money) : Decidable (MoneyValid m) := by
  unfold MoneyValid
  infer_instance

instance (item : CartItem) : Decidable (CartItemValid item) := by
  unfold CartItemValid
  infer_instance

/-- Sum of the per-line totals in minor units:
`unitPrice` cents times quantity per line item. -/
def sumLineCents (items : List CartItem) : Int :=
  (items.map (fun item => item.unitPrice.cents * item.quantity.value)).sum

/-! Concrete data used by witnesses and counterexamples. -/

/-- A concrete valid line item: EUR price given in cents. -/
def wItem (pid : String) (q : Int) (cents : Int) : CartItemProps :=
  { productId := { value := pid }
    productName := "Widget"
    quantity := { value := q }
    unitPrice := { cents := cents, currency := .EUR } }

/-- A concrete cart around a given item list and status. -/
def wCart (items : List CartItem) (status : CartStatus) : CartProps :=
  { cartId := "cart-1", userId := "user-1", items := items, status := status, currency := .EUR }

/-- The k-th of 100 pairwise distinct product ids (`PRD-AA` … `PRD-JJ`). -/
def wPid (k : Nat) : String :=
  String.mk ['P', 'R', 'D', '-', Char.ofNat (65 + k / 10), Char.ofNat (65 + k % 10)]

/-- A list of `n` valid line items with pairwise distinct product ids. -/
def wItems (n : Nat) : List CartItem :=
  (List.range n).map (fun k => wItem (wPid k) 1 100)

/-- First item of the spec's basic-total scenario: PROD-001, qty 2,
price 29.99 EUR (2999 cents). -/
def itemC8a : CartItemProps :=
  { productId := { value := "PROD-001" }
    productName := "Product One"
    quantity := { value := 2 }
    unitPrice := { cents := 2999, currency := .EUR } }

/-- Second item of the spec's basic-total scenario: PROD-002, qty 1,
price 15.50 EUR (1550 cents). -/
def itemC8b : CartItemProps :=
  { productId := { value := "PROD-002" }
    productName := "Product Two"
    quantity := { value := 1 }
    unitPrice := { cents := 1550, currency := .EUR } }

/-- The cart the basic-total scenario is expected to produce. -/
def cartC8 : CartProps := wCart [itemC8a, itemC8b] .ACTIVE

/-- The spec's basic-total scenario, run through the embedded operations:
create an EUR cart, add PROD-001 (qty 2, price 29.99), add PROD-002
(qty 1, price 15.50). -/
def scenarioC8 : Except Err CartProps := do
  let c0 ← Cart.create "cart-1" "user-1" (some .EUR)
  let p1 ← Money.fromDecimal (29.99 : ℚ) .EUR
  let c1 ← Cart.addItem c0
    { productId := { value := "PROD-001" }
      productName := "Product One"
      quantity := { value := 2 }
      unitPrice := p1 }
  let p2 ← Money.fromDecimal (15.50 : ℚ) .EUR
  Cart.addItem c1
    { productId := { value := "PROD-002" }
      productName := "Product Two"
      quantity := { value := 1 }
      unitPrice := p2 }

/-- A non-empty CHECKED_OUT cart (for the terminal-state counterexample). -/
def cartCheckedOut : CartProps := wCart [wItem "PROD-001" 2 2999] .CHECKED_OUT

/-- A non-empty ABANDONED cart (for the terminal-state counterexample). -/
def cartAbandoned : CartProps := wCart [wItem "PROD-001" 2 2999] .ABANDONED

/-- An ACTIVE cart already holding PROD-001 at the quantity cap 999. -/
def cartAtQtyCap : CartProps := wCart [wItem "PROD-001" 999 2999] .ACTIVE

/-- A further unit of PROD-001 (valid on its own), which would merge to
quantity 1000. -/
def itemOneMore : CartItemProps := wItem "PROD-001" 1 2999

/-! ## Helper lemmas -/

section Plumbing

@[simp] theorem except_ok_bind {ε α β : Type} (a : α) (f : α → Except ε β) :
    (Except.ok a >>= f) = f a := rfl

@[simp] theorem except_error_bind {ε α β : Type} (e : ε) (f : α → Except ε β) :
    ((Except.error e : Except ε α) >>= f) = Except.error e := rfl

theorem except_bind_ok {ε α β : Type} (x : Except ε α) (f : α → Except ε β) (b : β) :
    (x >>= f) = .ok b ↔ ∃ a, x = .ok a ∧ f a = .ok b := by
  cases x <;> simp

@[simp] theorem except_throw_eq {ε α : Type} (e : ε) : (throw e : Except ε α) = .error e := rfl

@[simp] theorem except_pure_eq {ε α : Type} (a : α) : (pure a : Except ε α) = .ok a := rfl

end Plumbing

theorem currency_supported (c : Currency) : c ∈ DOMAIN_CONSTANTS.SUPPORTED_CURRENCIES := by
  cases c <;> decide

theorem Cart.validate_ok_iff (props : CartProps) :
    Cart.validate props = .ok () ↔ CartInvariant props := by
  unfold Cart.validate CartInvariant
  split_ifs with h1 h2 h3
  · simp_all
  · simp_all
  · constructor
    · intro h; simp at h
    · rintro ⟨hu, hl, hc⟩
      exfalso
      obtain ⟨x, hx⟩ := List.exists_mem_of_length_pos h3
      have := List.mem_filter.mp hx
      exact absurd (hc x this.1) (by simpa using this.2)
  · constructor
    · intro _
      refine ⟨by simpa using h1, by omega, ?_⟩
      intro item hmem
      by_contra hne
      have hmemf : item ∈ props.items.filter (fun item => item.unitPrice.currency != props.currency) :=
        List.mem_filter.mpr ⟨hmem, by simpa using hne⟩
      have : 0 < (props.items.filter (fun item => item.unitPrice.currency != props.currency)).length :=
        List.length_pos.mpr (List.ne_nil_of_mem hmemf)
      omega
    · intro _; rfl

theorem Cart.construct_ok_iff (props c : CartProps) :
    Cart.construct props = .ok c ↔ CartInvariant props ∧ c = props := by
  unfold Cart.construct
  rw [show (do Cart.validate props; pure props : Except Err CartProps) =
      (Cart.validate props >>= fun _ => pure props) from rfl]
  cases hv : Cart.validate props with
  | error e =>
      have hninv : ¬ CartInvariant props := fun hinv => by
        have h2 := (Cart.validate_ok_iff props).mpr hinv
        rw [hv] at h2; cases h2
      simp [hninv]
  | ok u =>
      cases u
      have hinv := (Cart.validate_ok_iff props).mp hv
      simp [hinv, eq_comm]

theorem Cart.construct_invariant {props c : CartProps} (h : Cart.construct props = .ok c) :
    CartInvariant c := by
  obtain ⟨hinv, rfl⟩ := (Cart.construct_ok_iff props c).mp h
  exact hinv

theorem Cart.construct_of_invariant {props : CartProps} (h : CartInvariant props) :
    Cart.construct props = .ok props :=
  (Cart.construct_ok_iff props props).mpr ⟨h, rfl⟩

theorem Cart.ensureActive_error {cart : CartProps} (h : cart.status ≠ .ACTIVE) :
    Cart.ensureActive cart = .error (CartNotActiveError cart.cartId cart.status) := by
  unfold Cart.ensureActive Cart.isActive
  simp [h]

theorem Cart.ensureActive_ok {cart : CartProps} (h : cart.status = .ACTIVE) :
    Cart.ensureActive cart = .ok () := by
  unfold Cart.ensureActive Cart.isActive
  simp [h]

theorem Money.fromCents_ok {cents : Int} (c : Currency) (h : 0 ≤ cents) :
    Money.fromCents cents c = .ok { cents := cents, currency := c } := by
  unfold Money.fromCents Money.validate
  have hn : ¬ cents < 0 := by omega
  simp [hn, currency_supported c]

theorem Money.multiply_int (m : Money) (n : Int) :
    Money.multiply m (n : ℚ) = Money.fromCents (m.cents * n) m.currency := by
  unfold Money.multiply
  congr 1
  have hc : ((m.cents : ℚ)) * (n : ℚ) = ((m.cents * n : ℤ) : ℚ) := by push_cast; ring
  rw [hc, round_intCast]

theorem Money.ensureSameCurrency_ok {m other : Money} (h : m.currency = other.currency) :
    Money.ensureSameCurrency m other = .ok () := by
  unfold Money.ensureSameCurrency
  simp [h]

theorem Money.ensureSameCurrency_error {m other : Money} (h : m.currency ≠ other.currency) :
    Money.ensureSameCurrency m other =
      .error (.plainErr ("Cannot operate on different currencies: " ++ m.currency.code ++
        " and " ++ other.currency.code)) := by
  unfold Money.ensureSameCurrency
  simp [h]

theorem Money.add_same {m other : Money} (hc : m.currency = other.currency)
    (hm : 0 ≤ m.cents) (ho : 0 ≤ other.cents) :
    Money.add m other = .ok { cents := m.cents + other.cents, currency := m.currency } := by
  unfold Money.add
  rw [show (do Money.ensureSameCurrency m other; Money.fromCents (m.cents + other.cents) m.currency) =
      (Money.ensureSameCurrency m other >>= fun _ => Money.fromCents (m.cents + other.cents) m.currency) from rfl]
  rw [Money.ensureSameCurrency_ok hc]
  simp only [except_ok_bind]
  exact Money.fromCents_ok m.currency (by omega)
theorem Quantity.fromVal_ok {v : Int} (h1 : 1 ≤ v) (h2 : v ≤ 999) :
    Quantity.fromVal v = .ok { value := v } := by
  unfold Quantity.fromVal Quantity.validate DOMAIN_CONSTANTS.MAX_ITEM_QUANTITY
  have hn : ¬ v ≤ 0 := by omega
  have hn2 : ¬ v > 999 := by omega
  simp [hn, hn2]

theorem Quantity.fromVal_overflow {v : Int} (h : v > 999) :
    Quantity.fromVal v = .error (InvalidQuantityError v) := by
  unfold Quantity.fromVal Quantity.validate DOMAIN_CONSTANTS.MAX_ITEM_QUANTITY
  have hn : ¬ v ≤ 0 := by omega
  simp [hn, h]

theorem CartItem.create_ok {props : CartItemProps} (h1 : (strTrim props.productName).length ≠ 0)
    (h2 : props.productName.length ≤ 200) (h3 : props.unitPrice.cents ≠ 0) :
    CartItem.create props = .ok props := by
  unfold CartItem.create CartItem.validate Money.isZero
  have hn2 : ¬ props.productName.length > 200 := by omega
  simp [h1, hn2, h3]

theorem CartItem.create_ok_of_valid {props : CartItemProps} (h : CartItemValid props) :
    CartItem.create props = .ok props :=
  CartItem.create_ok h.1 h.2.1 h.2.2.1

theorem findIndexOpt_none {α : Type} {p : α → Bool} {l : List α}
    (h : ∀ x ∈ l, p x = false) : Cart.findIndexOpt p l = none := by
  induction l with
  | nil => rfl
  | cons x xs ih =>
      unfold Cart.findIndexOpt
      have hx : p x = false := h x (List.mem_cons_self x xs)
      have ih2 := ih fun y hy => h y (List.mem_cons_of_mem x hy)
      simp [hx, ih2]

theorem findIndexOpt_append_cons {α : Type} {p : α → Bool} {l1 : List α} (x : α) (l2 : List α)
    (h1 : ∀ y ∈ l1, p y = false) (hx : p x = true) :
    Cart.findIndexOpt p (l1 ++ x :: l2) = some l1.length := by
  induction l1 with
  | nil => simp [Cart.findIndexOpt, hx]
  | cons a l ih =>
      have ha : p a = false := h1 a (List.mem_cons_self a l)
      have ih2 := ih fun y hy => h1 y (List.mem_cons_of_mem a hy)
      simp [Cart.findIndexOpt, ha, ih2]

theorem take_append_cons {α : Type} (l1 : List α) (x : α) (l2 : List α) :
    (l1 ++ x :: l2).take l1.length = l1 := by
  induction l1 with
  | nil => rfl
  | cons a l ih => simp [ih]

theorem drop_append_cons {α : Type} (l1 : List α) (x : α) (l2 : List α) :
    (l1 ++ x :: l2).drop (l1.length + 1) = l2 := by
  induction l1 with
  | nil => rfl
  | cons a l ih => simp [ih]

theorem getD_append_cons {α : Type} (l1 : List α) (x : α) (l2 : List α) (d : α) :
    (l1 ++ x :: l2).getD l1.length d = x := by
  induction l1 with
  | nil => rfl
  | cons a l ih => simpa using ih
theorem ProductId.equals_true_iff (a b : ProductId) : ProductId.equals a b = true ↔ a = b := by
  unfold ProductId.equals
  cases a; cases b
  simp

theorem ProductId.equals_false_of_ne {a b : ProductId} (h : a ≠ b) :
    ProductId.equals a b = false := by
  rw [← Bool.not_eq_true, ProductId.equals_true_iff]
  exact h

theorem Cart.addItem_merge
    {cart : CartProps} {l1 l2 : List CartItem} {ex : CartItem} {props : CartItemProps}
    (hitems : cart.items = l1 ++ ex :: l2)
    (hactive : cart.status = .ACTIVE)
    (hcur : props.unitPrice.currency = cart.currency)
    (hnew : CartItemValid props)
    (hfirst : ∀ y ∈ l1, y.productId ≠ props.productId)
    (hex : ex.productId = props.productId) :
    Cart.addItem cart props =
      (CartItem.increaseQuantity ex props.quantity >>= fun merged =>
        Cart.withUpdatedItems cart (l1 ++ [merged] ++ l2)) := by
  unfold Cart.addItem
  rw [Cart.ensureActive_ok hactive]
  simp only [except_ok_bind]
  rw [if_neg (by simp [hcur])]
  rw [CartItem.create_ok_of_valid hnew]
  simp only [except_ok_bind]
  have hfind : Cart.findIndexOpt (fun item => item.productId.equals props.productId) cart.items =
      some l1.length := by
    rw [hitems]
    exact findIndexOpt_append_cons ex l2
      (fun y hy => ProductId.equals_false_of_ne (hfirst y hy))
      ((ProductId.equals_true_iff ex.productId props.productId).mpr hex)
  rw [hitems, ← hitems] at hfind ⊢
  rw [hfind]
  simp only [hitems]
  rw [getD_append_cons, take_append_cons, drop_append_cons]
theorem CartItem.increaseQuantity_ok {ex : CartItem} {q : Quantity}
    (hexv : CartItemValid ex)
    (hpos : 1 ≤ ex.quantity.value + q.value)
    (hsum : ex.quantity.value + q.value ≤ 999) :
    CartItem.increaseQuantity ex q = .ok { ex with quantity := { value := ex.quantity.value + q.value } } := by
  unfold CartItem.increaseQuantity CartItem.updateQuantity Quantity.add
  rw [Quantity.fromVal_ok hpos hsum]
  simp only [except_ok_bind]
  exact CartItem.create_ok hexv.1 hexv.2.1 hexv.2.2.1

theorem CartItem.increaseQuantity_overflow {ex : CartItem} {q : Quantity}
    (hsum : ex.quantity.value + q.value > 999) :
    CartItem.increaseQuantity ex q = .error (InvalidQuantityError (ex.quantity.value + q.value)) := by
  unfold CartItem.increaseQuantity Quantity.add
  rw [Quantity.fromVal_overflow hsum]
  rfl

theorem Cart.addItem_merge_ok
    {cart : CartProps} {l1 l2 : List CartItem} {ex : CartItem} {props : CartItemProps}
    (hinv : CartInvariant cart)
    (hitems : cart.items = l1 ++ ex :: l2)
    (hactive : cart.status = .ACTIVE)
    (hcur : props.unitPrice.currency = cart.currency)
    (hnew : CartItemValid props)
    (hexv : CartItemValid ex)
    (hfirst : ∀ y ∈ l1, y.productId ≠ props.productId)
    (hex : ex.productId = props.productId)
    (hsum : ex.quantity.value + props.quantity.value ≤ 999) :
    Cart.addItem cart props =
      .ok { cart with items :=
        l1 ++ [{ ex with quantity := { value := ex.quantity.value + props.quantity.value } }] ++ l2 } := by
  rw [Cart.addItem_merge hitems hactive hcur hnew hfirst hex]
  have hpos : 1 ≤ ex.quantity.value + props.quantity.value := by
    have h1 := hexv.2.2.2.1.1
    have h2 := hnew.2.2.2.1.1
    omega
  rw [CartItem.increaseQuantity_ok hexv hpos hsum]
  simp only [except_ok_bind]
  unfold Cart.withUpdatedItems
  apply Cart.construct_of_invariant
  obtain ⟨hu, hl, hc⟩ := hinv
  refine ⟨hu, ?_, ?_⟩
  · rw [hitems] at hl
    simp only [List.length_append, List.length_cons, List.length_nil] at hl ⊢
    unfold DOMAIN_CONSTANTS.MAX_CART_ITEMS at hl ⊢
    omega
  · intro item hmem
    simp only [List.mem_append, List.mem_singleton] at hmem
    rcases hmem with (hmem | rfl) | hmem
    · exact hc item (by rw [hitems]; exact List.mem_append_left _ hmem)
    · exact hc ex (by rw [hitems]; exact List.mem_append_right _ (List.mem_cons_self ex l2))
    · exact hc item (by rw [hitems]; exact List.mem_append_right _ (List.mem_cons_of_mem ex hmem))

theorem Cart.addItem_merge_overflow
    {cart : CartProps} {l1 l2 : List CartItem} {ex : CartItem} {props : CartItemProps}
    (hitems : cart.items = l1 ++ ex :: l2)
    (hactive : cart.status = .ACTIVE)
    (hcur : props.unitPrice.currency = cart.currency)
    (hnew : CartItemValid props)
    (hfirst : ∀ y ∈ l1, y.productId ≠ props.productId)
    (hex : ex.productId = props.productId)
    (hsum : ex.quantity.value + props.quantity.value > 999) :
    Cart.addItem cart props =
      .error (InvalidQuantityError (ex.quantity.value + props.quantity.value)) := by
  rw [Cart.addItem_merge hitems hactive hcur hnew hfirst hex]
  rw [CartItem.increaseQuantity_overflow hsum]
  rfl

theorem Cart.addItem_fresh
    {cart : CartProps} {props : CartItemProps}
    (hactive : cart.status = .ACTIVE)
    (hcur : props.unitPrice.currency = cart.currency)
    (hnew : CartItemValid props)
    (hfresh : ∀ y ∈ cart.items, y.productId ≠ props.productId) :
    Cart.addItem cart props =
      if cart.items.length ≥ DOMAIN_CONSTANTS.MAX_CART_ITEMS then
        .error (MaxCartItemsExceededError DOMAIN_CONSTANTS.MAX_CART_ITEMS)
      else Cart.withUpdatedItems cart (cart.items ++ [props]) := by
  unfold Cart.addItem
  rw [Cart.ensureActive_ok hactive]
  simp only [except_ok_bind]
  rw [if_neg (by simp [hcur])]
  rw [CartItem.create_ok_of_valid hnew]
  simp only [except_ok_bind]
  rw [findIndexOpt_none fun y hy => ProductId.equals_false_of_ne (hfresh y hy)]
  rfl

theorem Cart.addItem_fresh_full
    {cart : CartProps} {props : CartItemProps}
    (hactive : cart.status = .ACTIVE)
    (hcur : props.unitPrice.currency = cart.currency)
    (hnew : CartItemValid props)
    (hfresh : ∀ y ∈ cart.items, y.productId ≠ props.productId)
    (hlen : cart.items.length = 100) :
    Cart.addItem cart props = .error (MaxCartItemsExceededError 100) := by
  rw [Cart.addItem_fresh hactive hcur hnew hfresh]
  rw [if_pos (by unfold DOMAIN_CONSTANTS.MAX_CART_ITEMS; omega)]
  rfl

theorem Cart.addItem_fresh_ok
    {cart : CartProps} {props : CartItemProps}
    (hinv : CartInvariant cart)
    (hactive : cart.status = .ACTIVE)
    (hcur : props.unitPrice.currency = cart.currency)
    (hnew : CartItemValid props)
    (hfresh : ∀ y ∈ cart.items, y.productId ≠ props.productId)
    (hlen : cart.items.length ≤ 99) :
    Cart.addItem cart props = .ok { cart with items := cart.items ++ [props] } := by
  rw [Cart.addItem_fresh hactive hcur hnew hfresh]
  rw [if_neg (by unfold DOMAIN_CONSTANTS.MAX_CART_ITEMS; omega)]
  unfold Cart.withUpdatedItems
  apply Cart.construct_of_invariant
  obtain ⟨hu, hl, hc⟩ := hinv
  refine ⟨hu, ?_, ?_⟩
  · simp only [List.length_append, List.length_singleton]
    unfold DOMAIN_CONSTANTS.MAX_CART_ITEMS
    omega
  · intro item hmem
    rcases List.mem_append.mp hmem with hmem | hmem
    · exact hc item hmem
    · rw [List.mem_singleton.mp hmem]
      exact hcur
theorem Cart.addItem_not_active {cart : CartProps} {props : CartItemProps}
    (h : cart.status ≠ .ACTIVE) :
    Cart.addItem cart props = .error (CartNotActiveError cart.cartId cart.status) := by
  unfold Cart.addItem
  rw [Cart.ensureActive_error h]
  rfl

theorem Cart.removeItem_not_active {cart : CartProps} {pid : ProductId}
    (h : cart.status ≠ .ACTIVE) :
    Cart.removeItem cart pid = .error (CartNotActiveError cart.cartId cart.status) := by
  unfold Cart.removeItem
  rw [Cart.ensureActive_error h]
  rfl

theorem Cart.updateItemQuantity_not_active {cart : CartProps} {pid : ProductId} {q : Quantity}
    (h : cart.status ≠ .ACTIVE) :
    Cart.updateItemQuantity cart pid q = .error (CartNotActiveError cart.cartId cart.status) := by
  unfold Cart.updateItemQuantity
  rw [Cart.ensureActive_error h]
  rfl

theorem Cart.clearItems_not_active {cart : CartProps}
    (h : cart.status ≠ .ACTIVE) :
    Cart.clearItems cart = .error (CartNotActiveError cart.cartId cart.status) := by
  unfold Cart.clearItems
  rw [Cart.ensureActive_error h]
  rfl

theorem invariant_set_status (cart : CartProps) (s : CartStatus) (hinv : CartInvariant cart) :
    CartInvariant { cart with status := s } :=
  ⟨hinv.1, hinv.2.1, hinv.2.2⟩

theorem Cart.abandon_ok {cart : CartProps} (hinv : CartInvariant cart) :
    Cart.abandon cart = .ok { cart with status := .ABANDONED } := by
  unfold Cart.abandon
  exact Cart.construct_of_invariant (invariant_set_status cart _ hinv)

theorem Cart.checkout_empty {cart : CartProps} (h : cart.items = []) :
    Cart.checkout cart = .error (InvalidCartError "Cannot checkout empty cart") := by
  unfold Cart.checkout Cart.isEmpty
  simp [h]

theorem Cart.checkout_nonempty {cart : CartProps} (hinv : CartInvariant cart)
    (h : cart.items ≠ []) :
    Cart.checkout cart = .ok { cart with status := .CHECKED_OUT } := by
  unfold Cart.checkout Cart.isEmpty
  rw [if_neg (by simp [h])]
  exact Cart.construct_of_invariant (invariant_set_status cart _ hinv)

theorem Cart.create_invariant {cartId userId : String} {cur : Option Currency} {c : CartProps}
    (h : Cart.create cartId userId cur = .ok c) : CartInvariant c := by
  unfold Cart.create at h
  exact Cart.construct_invariant h

theorem Cart.fromProps_invariant {props c : CartProps}
    (h : Cart.fromProps props = .ok c) : CartInvariant c := by
  unfold Cart.fromProps at h
  exact Cart.construct_invariant h

theorem Cart.addItem_invariant {cart : CartProps} {props : CartItemProps} {c : CartProps}
    (h : Cart.addItem cart props = .ok c) : CartInvariant c := by
  unfold Cart.addItem at h
  rw [except_bind_ok] at h
  obtain ⟨u, hu, h⟩ := h
  split at h
  · exact absurd h (by simp)
  · rw [except_bind_ok] at h
    obtain ⟨newItem, hn, h⟩ := h
    split at h
    · rw [except_bind_ok] at h
      obtain ⟨merged, hm, h⟩ := h
      unfold Cart.withUpdatedItems at h
      exact Cart.construct_invariant h
    · split at h
      · exact absurd h (by simp)
      · unfold Cart.withUpdatedItems at h
        exact Cart.construct_invariant h

theorem Cart.removeItem_invariant {cart : CartProps} {pid : ProductId} {c : CartProps}
    (h : Cart.removeItem cart pid = .ok c) : CartInvariant c := by
  unfold Cart.removeItem at h
  rw [except_bind_ok] at h
  obtain ⟨u, hu, h⟩ := h
  split at h
  · exact absurd h (by simp)
  · unfold Cart.withUpdatedItems at h
    exact Cart.construct_invariant h

theorem Cart.updateItemQuantity_invariant {cart : CartProps} {pid : ProductId} {q : Quantity}
    {c : CartProps} (h : Cart.updateItemQuantity cart pid q = .ok c) : CartInvariant c := by
  unfold Cart.updateItemQuantity at h
  rw [except_bind_ok] at h
  obtain ⟨u, hu, h⟩ := h
  split at h
  · exact absurd h (by simp)
  · rw [except_bind_ok] at h
    obtain ⟨upd, hup, h⟩ := h
    unfold Cart.withUpdatedItems at h
    exact Cart.construct_invariant h

theorem Cart.clearItems_invariant {cart : CartProps} {c : CartProps}
    (h : Cart.clearItems cart = .ok c) : CartInvariant c := by
  unfold Cart.clearItems at h
  rw [except_bind_ok] at h
  obtain ⟨u, hu, h⟩ := h
  unfold Cart.withUpdatedItems at h
  exact Cart.construct_invariant h

theorem Cart.abandon_invariant {cart : CartProps} {c : CartProps}
    (h : Cart.abandon cart = .ok c) : CartInvariant c := by
  unfold Cart.abandon at h
  exact Cart.construct_invariant h

theorem Cart.checkout_invariant {cart : CartProps} {c : CartProps}
    (h : Cart.checkout cart = .ok c) : CartInvariant c := by
  unfold Cart.checkout at h
  split at h
  · exact absurd h (by simp)
  · exact Cart.construct_invariant h
theorem CartItem.lineTotal_eq {item : CartItem}
    (hm : 0 ≤ item.unitPrice.cents) (hq : 0 ≤ item.quantity.value) :
    CartItem.lineTotal item =
      .ok { cents := item.unitPrice.cents * item.quantity.value,
            currency := item.unitPrice.currency } := by
  unfold CartItem.lineTotal
  rw [Money.multiply_int]
  exact Money.fromCents_ok _ (mul_nonneg hm hq)

theorem total_fold (items : List CartItem) (acc : Money)
    (hcur : ∀ i ∈ items, i.unitPrice.currency = acc.currency)
    (hval : ∀ i ∈ items, 0 ≤ i.unitPrice.cents ∧ 0 ≤ i.quantity.value)
    (hacc : 0 ≤ acc.cents) :
    items.foldlM
      (fun sum item => do
        let lt ← CartItem.lineTotal item
        Money.add sum lt) acc =
      .ok { cents := acc.cents + sumLineCents items, currency := acc.currency } := by
  induction items generalizing acc with
  | nil => simp [sumLineCents]
  | cons i rest ih =>
      have hic := hcur i (List.mem_cons_self i rest)
      have hiv := hval i (List.mem_cons_self i rest)
      rw [List.foldlM_cons]
      rw [show (do
            let lt ← CartItem.lineTotal i
            Money.add acc lt) = (CartItem.lineTotal i >>= fun lt => Money.add acc lt) from rfl]
      rw [CartItem.lineTotal_eq hiv.1 hiv.2]
      simp only [except_ok_bind]
      rw [Money.add_same (by rw [hic]) hacc (mul_nonneg hiv.1 hiv.2)]
      simp only [except_ok_bind]
      have ih2 := ih
        { cents := acc.cents + i.unitPrice.cents * i.quantity.value,
          currency := acc.currency }
        (fun j hj => hcur j (List.mem_cons_of_mem i hj))
        (fun j hj => hval j (List.mem_cons_of_mem i hj))
        (by simpa using add_nonneg hacc (mul_nonneg hiv.1 hiv.2))
      rw [ih2]
      simp only [sumLineCents, List.map_cons, List.sum_cons]
      rw [add_assoc]

theorem Cart.total_eq (cart : CartProps)
    (hcur : ∀ i ∈ cart.items, i.unitPrice.currency = cart.currency)
    (hval : ∀ i ∈ cart.items, 0 ≤ i.unitPrice.cents ∧ 0 ≤ i.quantity.value) :
    Cart.total cart = .ok { cents := sumLineCents cart.items, currency := cart.currency } := by
  unfold Cart.total
  split
  · rename_i hlen
    have : cart.items = [] := by
      simpa using List.length_eq_zero.mp (by simpa using hlen)
    rw [this]
    simp [sumLineCents, Money.zero]
  · have := total_fold cart.items (Money.zero cart.currency)
      (by simpa [Money.zero] using hcur) hval (by simp [Money.zero])
    rw [this]
    simp [Money.zero]
theorem Money.validate_zero (c : Currency) : Money.validate 0 c = .ok () := by
  unfold Money.validate
  simp [currency_supported c]

theorem Cart.abandon_status {cart c : CartProps} (h : Cart.abandon cart = .ok c) :
    c.status = .ABANDONED := by
  unfold Cart.abandon at h
  obtain ⟨_, rfl⟩ := (Cart.construct_ok_iff _ _).mp h
  rfl

theorem Cart.checkout_status {cart c : CartProps} (h : Cart.checkout cart = .ok c) :
    c.status = .CHECKED_OUT := by
  unfold Cart.checkout at h
  split at h
  · exact absurd h (by simp)
  · obtain ⟨_, rfl⟩ := (Cart.construct_ok_iff _ _).mp h
    rfl

theorem filter_count_one {p : CartItem → Bool} {l1 l2 : List CartItem} {x : CartItem}
    (h1 : ∀ y ∈ l1, p y = false) (h2 : ∀ y ∈ l2, p y = false) (hx : p x = true) :
    ((l1 ++ [x] ++ l2).filter p).length = 1 := by
  have e1 : List.filter p l1 = [] := List.filter_eq_nil_iff.mpr (fun a ha => by simp [h1 a ha])
  have e2 : List.filter p l2 = [] := List.filter_eq_nil_iff.mpr (fun a ha => by simp [h2 a ha])
  simp [List.filter_append, e1, e2, hx]

theorem money2999 : Money.fromDecimal (29.99 : ℚ) .EUR = .ok { cents := 2999, currency := .EUR } := by
  unfold Money.fromDecimal
  norm_num [round_eq]
  decide

theorem money1550 : Money.fromDecimal (15.50 : ℚ) .EUR = .ok { cents := 1550, currency := .EUR } := by
  unfold Money.fromDecimal
  norm_num [round_eq]
  decide

theorem scenarioC8_eval : scenarioC8 = .ok cartC8 := by
  unfold scenarioC8
  rw [show Cart.create "cart-1" "user-1" (some .EUR) = .ok (wCart [] .ACTIVE) from by decide]
  simp only [except_ok_bind]
  rw [money2999]
  simp only [except_ok_bind]
  rw [show Cart.addItem (wCart [] .ACTIVE)
      { productId := { value := "PROD-001" }
        productName := "Product One"
        quantity := { value := 2 }
        unitPrice := { cents := 2999, currency := .EUR } } = .ok (wCart [itemC8a] .ACTIVE) from by decide]
  simp only [except_ok_bind]
  rw [money1550]
  simp only [except_ok_bind]
  decide
/-! ## Claims -/

/-- Claim C1, counterexample: the claim says no operation ever moves a cart
out of a terminal status (ABANDONED, CHECKED_OUT), but neither `abandon()`
nor `checkout()` has a status guard.  Both escapes concretely: `abandon()`
on the CHECKED_OUT cart `cartCheckedOut` returns an ABANDONED cart, and
`checkout()` on the non-empty ABANDONED cart `cartAbandoned` returns a
CHECKED_OUT cart — transitions out of both terminal states. -/
theorem claim_C1_counterexample :
    cartCheckedOut.status = CartStatus.CHECKED_OUT ∧
    Cart.abandon cartCheckedOut = .ok { cartCheckedOut with status := .ABANDONED } ∧
    CartStatus.ABANDONED ≠ CartStatus.CHECKED_OUT ∧
    cartAbandoned.status = CartStatus.ABANDONED ∧
    Cart.checkout cartAbandoned = .ok { cartAbandoned with status := .CHECKED_OUT } ∧
    CartStatus.CHECKED_OUT ≠ CartStatus.ABANDONED := by
  decide

/-- Claim C1 (amended): ABANDONED and CHECKED_OUT are terminal only with
respect to the item-mutating operations, which all fail with
`CartNotActive`; `abandon()` and `checkout()` carry no status guard: on any
cart in a terminal status (with the class invariant every TS `Cart` has by
construction, see `claim_C5`), `abandon()` succeeds with status ABANDONED,
and `checkout()` on a non-empty such cart succeeds with status CHECKED_OUT
— so in particular CHECKED_OUT → ABANDONED and ABANDONED → CHECKED_OUT
transitions are both possible. -/
theorem claim_C1 (cart : CartProps)
    (hterm : cart.status = .ABANDONED ∨ cart.status = .CHECKED_OUT)
    (hinv : CartInvariant cart) :
    (∀ props : CartItemProps,
      Cart.addItem cart props = .error (CartNotActiveError cart.cartId cart.status)) ∧
    (∀ pid : ProductId,
      Cart.removeItem cart pid = .error (CartNotActiveError cart.cartId cart.status)) ∧
    (∀ (pid : ProductId) (q : Quantity),
      Cart.updateItemQuantity cart pid q = .error (CartNotActiveError cart.cartId cart.status)) ∧
    Cart.clearItems cart = .error (CartNotActiveError cart.cartId cart.status) ∧
    Cart.abandon cart = .ok { cart with status := .ABANDONED } ∧
    (cart.items ≠ [] → Cart.checkout cart = .ok { cart with status := .CHECKED_OUT }) := by
  have hne : cart.status ≠ .ACTIVE := by
    rcases hterm with h | h <;> rw [h] <;> intro hc <;> cases hc
  exact ⟨fun props => Cart.addItem_not_active hne,
    fun pid => Cart.removeItem_not_active hne,
    fun pid q => Cart.updateItemQuantity_not_active hne,
    Cart.clearItems_not_active hne,
    Cart.abandon_ok hinv,
    fun hne2 => Cart.checkout_nonempty hinv hne2⟩

/-- Claim C1, witness: the amended claim applied to concrete terminal
carts — the item mutators are rejected, `abandon()` escapes the concrete
CHECKED_OUT cart to ABANDONED, and `checkout()` escapes the concrete
non-empty ABANDONED cart to CHECKED_OUT. -/
theorem claim_C1_witness :
    Cart.clearItems cartCheckedOut =
      .error (CartNotActiveError "cart-1" .CHECKED_OUT) ∧
    Cart.addItem cartCheckedOut itemOneMore =
      .error (CartNotActiveError "cart-1" .CHECKED_OUT) ∧
    Cart.abandon cartCheckedOut = .ok (wCart [wItem "PROD-001" 2 2999] .ABANDONED) ∧
    Cart.checkout cartAbandoned = .ok (wCart [wItem "PROD-001" 2 2999] .CHECKED_OUT) := by
  have h := claim_C1 cartCheckedOut (Or.inr (by decide)) (by decide)
  have h2 := claim_C1 cartAbandoned (Or.inl (by decide)) (by decide)
  exact ⟨h.2.2.2.1, h.1 itemOneMore, h.2.2.2.2.1, h2.2.2.2.2.2 (by decide)⟩

/-- Claim C2 (confirmed): every item-mutating operation (`addItem`,
`removeItem`, `updateItemQuantity`, `clearItems`) on a cart whose status
is not ACTIVE fails with `CartNotActive`; the pre-call cart value is
unchanged, which in this embedding is inherent (operations are pure
functions of an immutable value). -/
theorem claim_C2 (cart : CartProps) (hne : cart.status ≠ .ACTIVE) :
    (∀ props : CartItemProps,
      Cart.addItem cart props = .error (CartNotActiveError cart.cartId cart.status)) ∧
    (∀ pid : ProductId,
      Cart.removeItem cart pid = .error (CartNotActiveError cart.cartId cart.status)) ∧
    (∀ (pid : ProductId) (q : Quantity),
      Cart.updateItemQuantity cart pid q = .error (CartNotActiveError cart.cartId cart.status)) ∧
    Cart.clearItems cart = .error (CartNotActiveError cart.cartId cart.status) ∧
    Err.code? (CartNotActiveError cart.cartId cart.status) = some "CART_NOT_ACTIVE" := by
  exact ⟨fun props => Cart.addItem_not_active hne,
    fun pid => Cart.removeItem_not_active hne,
    fun pid q => Cart.updateItemQuantity_not_active hne,
    Cart.clearItems_not_active hne,
    rfl⟩

/-- Claim C2, witness: a concrete ABANDONED cart rejects all four item
mutators. -/
theorem claim_C2_witness :
    Cart.removeItem (wCart [wItem "PROD-001" 2 2999] .ABANDONED) { value := "PROD-001" } =
      .error (CartNotActiveError "cart-1" .ABANDONED) ∧
    Cart.updateItemQuantity (wCart [wItem "PROD-001" 2 2999] .ABANDONED)
        { value := "PROD-001" } { value := 5 } =
      .error (CartNotActiveError "cart-1" .ABANDONED) := by
  have h := claim_C2 (wCart [wItem "PROD-001" 2 2999] .ABANDONED) (by decide)
  exact ⟨h.2.1 { value := "PROD-001" }, h.2.2.1 { value := "PROD-001" } { value := 5 }⟩

/-- Claim C6, counterexample: the claim says currency-mismatched `add`
fails with a `CurrencyMismatch` error kind distinguishable by a
machine-readable code; in the code `Money.ensureSameCurrency` throws a
plain `Error` with no code at all (there is no `CurrencyMismatch` class in
`cart.errors.ts`), shown here on a concrete EUR/USD pair. -/
theorem claim_C6_counterexample :
    Money.add { cents := 1000, currency := .EUR } { cents := 1000, currency := .USD } =
      .error (.plainErr "Cannot operate on different currencies: EUR and USD") ∧
    Err.code? (.plainErr "Cannot operate on different currencies: EUR and USD") = none := by
  decide

/-- Claim C6 (amended): for every pair of Money values with different
currencies, `add`, `subtract`, `isGreaterThan` and `isLessThan` all fail —
but with a plain uncoded `Error` naming the two currencies, not with a
machine-readable `CurrencyMismatch` domain error kind (no such kind exists
in the code). -/
theorem claim_C6 (m other : Money) (h : m.currency ≠ other.currency) :
    Money.add m other = .error (.plainErr
      ("Cannot operate on different currencies: " ++ m.currency.code ++
        " and " ++ other.currency.code)) ∧
    Money.subtract m other = .error (.plainErr
      ("Cannot operate on different currencies: " ++ m.currency.code ++
        " and " ++ other.currency.code)) ∧
    Money.isGreaterThan m other = .error (.plainErr
      ("Cannot operate on different currencies: " ++ m.currency.code ++
        " and " ++ other.currency.code)) ∧
    Money.isLessThan m other = .error (.plainErr
      ("Cannot operate on different currencies: " ++ m.currency.code ++
        " and " ++ other.currency.code)) ∧
    Err.code? (.plainErr
      ("Cannot operate on different currencies: " ++ m.currency.code ++
        " and " ++ other.currency.code)) = none := by
  refine ⟨?_, ?_, ?_, ?_, rfl⟩ <;>
    first
      | (unfold Money.add; rw [Money.ensureSameCurrency_error h]; rfl)
      | (unfold Money.subtract; rw [Money.ensureSameCurrency_error h]; rfl)
      | (unfold Money.isGreaterThan; rw [Money.ensureSameCurrency_error h]; rfl)
      | (unfold Money.isLessThan; rw [Money.ensureSameCurrency_error h]; rfl)

/-- Claim C6, witness: the amended claim applied to a concrete GBP/EUR
pair. -/
theorem claim_C6_witness :
    Money.subtract { cents := 500, currency := .GBP } { cents := 200, currency := .EUR } =
      .error (.plainErr "Cannot operate on different currencies: GBP and EUR") :=
  (claim_C6 { cents := 500, currency := .GBP } { cents := 200, currency := .EUR }
    (by decide)).2.1

/-- Claim C7 (confirmed): `checkout()` on a cart with zero items fails with
`InvalidCart` ("Cannot checkout empty cart"); on a cart with at least one
item (satisfying the class invariant every TS `Cart` has by construction,
see `claim_C5`) it succeeds and the result's status is CHECKED_OUT. -/
theorem claim_C7 (cart : CartProps) :
    (cart.items = [] →
      Cart.checkout cart = .error (InvalidCartError "Cannot checkout empty cart")) ∧
    (cart.items ≠ [] → CartInvariant cart →
      Cart.checkout cart = .ok { cart with status := .CHECKED_OUT }) := by
  constructor
  · intro h
    exact Cart.checkout_empty h
  · intro h hinv
    exact Cart.checkout_nonempty hinv h

/-- Claim C7, witness: the empty concrete cart fails checkout; after one
item is present, checkout succeeds with status CHECKED_OUT. -/
theorem claim_C7_witness :
    Cart.checkout (wCart [] .ACTIVE) =
      .error (InvalidCartError "Cannot checkout empty cart") ∧
    Cart.checkout (wCart [wItem "PROD-001" 2 2999] .ACTIVE) =
      .ok (wCart [wItem "PROD-001" 2 2999] .CHECKED_OUT) := by
  refine ⟨(claim_C7 (wCart [] .ACTIVE)).1 (by decide), ?_⟩
  have h := (claim_C7 (wCart [wItem "PROD-001" 2 2999] .ACTIVE)).2 (by decide) (by decide)
  exact h

/-- Claim C10 (confirmed): `Money.equals` is total — it is a plain boolean
function with no failure path, defined for every pair including
currency-mismatched ones — and it returns `true` exactly when both the
minor-unit amounts and the currencies coincide. -/
theorem claim_C10 (m other : Money) :
    Money.equals m other = true ↔ (m.cents = other.cents ∧ m.currency = other.currency) := by
  unfold Money.equals
  simp
/-- Claim C3, counterexample: the claim promises that adding an
already-present product (same currency) always yields the merged cart,
but when the merged quantity exceeds the 999 cap the operation fails:
on the concrete ACTIVE cart holding PROD-001 at quantity 999, adding one
more unit of PROD-001 fails with `InvalidQuantity` instead of producing
a cart. -/
theorem claim_C3_counterexample :
    cartAtQtyCap.status = CartStatus.ACTIVE ∧
    wItem "PROD-001" 999 2999 ∈ cartAtQtyCap.items ∧
    (wItem "PROD-001" 999 2999).productId = itemOneMore.productId ∧
    itemOneMore.unitPrice.currency = cartAtQtyCap.currency ∧
    Cart.addItem cartAtQtyCap itemOneMore = .error (InvalidQuantityError 1000) := by
  decide

/-- Claim C3 (amended): for every ACTIVE cart containing exactly one item
with productId P (quantity q1, name n1, price p1), `addItem` of valid
props for P (name n2, quantity q2, price p2 in the cart currency) with
q1 + q2 ≤ 999 yields a cart with exactly one line item for P whose
quantity is q1 + q2 and whose name and price are still n1 and p1 (the
new name/price are discarded), with `items.length` unchanged.  The bound
q1 + q2 ≤ 999 is the amendment forced by the counterexample. -/
theorem claim_C3 (cart : CartProps) (l1 l2 : List CartItem) (ex : CartItem)
    (props : CartItemProps)
    (hinv : CartInvariant cart)
    (hitems : cart.items = l1 ++ ex :: l2)
    (hactive : cart.status = .ACTIVE)
    (hcur : props.unitPrice.currency = cart.currency)
    (hnew : CartItemValid props)
    (hexv : CartItemValid ex)
    (hfirst : ∀ y ∈ l1, y.productId ≠ props.productId)
    (hrest : ∀ y ∈ l2, y.productId ≠ props.productId)
    (hex : ex.productId = props.productId)
    (hsum : ex.quantity.value + props.quantity.value ≤ 999) :
    ∃ merged : CartItem,
      Cart.addItem cart props = .ok { cart with items := l1 ++ [merged] ++ l2 } ∧
      merged.productName = ex.productName ∧
      merged.unitPrice = ex.unitPrice ∧
      merged.quantity.value = ex.quantity.value + props.quantity.value ∧
      ((l1 ++ [merged] ++ l2).filter
        (fun y => y.productId.equals props.productId)).length = 1 ∧
      (l1 ++ [merged] ++ l2).length = cart.items.length := by
  refine ⟨{ ex with quantity := { value := ex.quantity.value + props.quantity.value } },
    Cart.addItem_merge_ok hinv hitems hactive hcur hnew hexv hfirst hex hsum,
    rfl, rfl, rfl, ?_, ?_⟩
  · apply filter_count_one
    · exact fun y hy => ProductId.equals_false_of_ne (hfirst y hy)
    · exact fun y hy => ProductId.equals_false_of_ne (hrest y hy)
    · exact (ProductId.equals_true_iff _ _).mpr hex
  · rw [hitems]
    simp

/-- Claim C3, witness: a concrete merge — PROD-001 at quantity 2 plus
PROD-001 at quantity 3 with a different name and price gives one line
item at quantity 5 with the original name and price. -/
theorem claim_C3_witness :
    ∃ merged : CartItem,
      Cart.addItem (wCart [wItem "PROD-001" 2 2999] .ACTIVE)
        { productId := { value := "PROD-001" }
          productName := "Renamed"
          quantity := { value := 3 }
          unitPrice := { cents := 1500, currency := .EUR } } =
        .ok { wCart [wItem "PROD-001" 2 2999] .ACTIVE with items := ([] : List CartItem) ++ [merged] ++ [] } ∧
      merged.productName = "Widget" ∧
      merged.unitPrice = { cents := 2999, currency := .EUR } ∧
      merged.quantity.value = 5 ∧
      ((([] : List CartItem) ++ [merged] ++ []).filter
        (fun (y : CartItem) => y.productId.equals { value := "PROD-001" })).length = 1 ∧
      (([] : List CartItem) ++ [merged] ++ []).length =
        (wCart [wItem "PROD-001" 2 2999] .ACTIVE).items.length := by
  have h := claim_C3 (wCart [wItem "PROD-001" 2 2999] .ACTIVE)
    [] [] (wItem "PROD-001" 2 2999)
    { productId := { value := "PROD-001" }
      productName := "Renamed"
      quantity := { value := 3 }
      unitPrice := { cents := 1500, currency := .EUR } }
    (by decide) (by decide) (by decide) (by decide) (by decide) (by decide)
    (by decide) (by decide) (by decide) (by decide)
  exact h

/-- Claim C9 (confirmed): on an ACTIVE cart whose (unique, first) item for
productId P has quantity q1, `addItem` of valid props for P with quantity
q2 such that q1 + q2 > 999 fails with `InvalidQuantity` (code
INVALID_QUANTITY) — not with `MaxCartItemsExceeded`: the 999 per-item cap
applies to the merged quantity.  The cart value is unchanged, which in
this embedding is inherent (operations are pure functions). -/
theorem claim_C9 (cart : CartProps) (l1 l2 : List CartItem) (ex : CartItem)
    (props : CartItemProps)
    (hitems : cart.items = l1 ++ ex :: l2)
    (hactive : cart.status = .ACTIVE)
    (hcur : props.unitPrice.currency = cart.currency)
    (hnew : CartItemValid props)
    (hfirst : ∀ y ∈ l1, y.productId ≠ props.productId)
    (hex : ex.productId = props.productId)
    (hsum : ex.quantity.value + props.quantity.value > 999) :
    Cart.addItem cart props =
      .error (InvalidQuantityError (ex.quantity.value + props.quantity.value)) ∧
    Err.code? (InvalidQuantityError (ex.quantity.value + props.quantity.value)) =
      some "INVALID_QUANTITY" := by
  exact ⟨Cart.addItem_merge_overflow hitems hactive hcur hnew hfirst hex hsum, rfl⟩

/-- Claim C9, witness: PROD-001 at quantity 600, adding 500 more fails
with `InvalidQuantity 1100`. -/
theorem claim_C9_witness :
    Cart.addItem (wCart [wItem "PROD-001" 600 2999] .ACTIVE) (wItem "PROD-001" 500 2999) =
      .error (InvalidQuantityError 1100) := by
  have h := claim_C9 (wCart [wItem "PROD-001" 600 2999] .ACTIVE)
    [] [] (wItem "PROD-001" 600 2999)
    (wItem "PROD-001" 500 2999)
    (by decide) (by decide) (by decide) (by decide) (by decide) (by decide) (by decide)
  exact h.1
/-- Claim C4 (confirmed): on an ACTIVE cart holding 100 line items, adding
a product not already present (valid props, cart currency) fails with
`MaxCartItemsExceeded`; on an ACTIVE cart holding 99 line items (with the
class invariant every TS cart has), adding a 100th distinct product
succeeds, and the result holds 100 items. -/
theorem claim_C4 :
    (∀ (cart : CartProps) (props : CartItemProps),
      cart.status = .ACTIVE →
      cart.items.length = 100 →
      (∀ y ∈ cart.items, y.productId ≠ props.productId) →
      props.unitPrice.currency = cart.currency →
      CartItemValid props →
      Cart.addItem cart props = .error (MaxCartItemsExceededError 100)) ∧
    (∀ (cart : CartProps) (props : CartItemProps),
      CartInvariant cart →
      cart.status = .ACTIVE →
      cart.items.length = 99 →
      (∀ y ∈ cart.items, y.productId ≠ props.productId) →
      props.unitPrice.currency = cart.currency →
      CartItemValid props →
      Cart.addItem cart props = .ok { cart with items := cart.items ++ [props] } ∧
      (cart.items ++ [props]).length = 100) := by
  constructor
  · intro cart props hactive hlen hfresh hcur hvalid
    exact Cart.addItem_fresh_full hactive hcur hvalid hfresh hlen
  · intro cart props hinv hactive hlen hfresh hcur hvalid
    refine ⟨Cart.addItem_fresh_ok hinv hactive hcur hvalid hfresh (by omega), ?_⟩
    simp [hlen]

/-- Claim C4, witness: the boundary exercised on concrete carts of 100 and
99 distinct products. -/
theorem claim_C4_witness :
    Cart.addItem (wCart (wItems 100) .ACTIVE) (wItem "PROD-NEW" 1 100) =
      .error (MaxCartItemsExceededError 100) ∧
    Cart.addItem (wCart (wItems 99) .ACTIVE) (wItem "PROD-NEW" 1 100) =
      .ok { wCart (wItems 99) .ACTIVE with items := wItems 99 ++ [wItem "PROD-NEW" 1 100] } := by
  constructor
  · exact claim_C4.1 (wCart (wItems 100) .ACTIVE) (wItem "PROD-NEW" 1 100)
      (by decide) (by decide) (by decide) (by decide) (by decide)
  · exact (claim_C4.2 (wCart (wItems 99) .ACTIVE) (wItem "PROD-NEW" 1 100)
      (by decide) (by decide) (by decide) (by decide) (by decide) (by decide)).1

/-- Claim C5 (confirmed): every Cart value produced by `create`,
`fromProps`, or any operation returning a cart (`addItem`, `removeItem`,
`updateItemQuantity`, `clearItems`, `abandon`, `checkout`) satisfies the
aggregate invariant `CartInvariant`: at most 100 items, every item's
currency equal to the cart currency, and a non-blank userId — the private
constructor validates on every construction. -/
theorem claim_C5 :
    (∀ (cartId userId : String) (cur : Option Currency) (c : CartProps),
      Cart.create cartId userId cur = .ok c → CartInvariant c) ∧
    (∀ (props c : CartProps), Cart.fromProps props = .ok c → CartInvariant c) ∧
    (∀ (cart : CartProps) (props : CartItemProps) (c : CartProps),
      Cart.addItem cart props = .ok c → CartInvariant c) ∧
    (∀ (cart : CartProps) (pid : ProductId) (c : CartProps),
      Cart.removeItem cart pid = .ok c → CartInvariant c) ∧
    (∀ (cart : CartProps) (pid : ProductId) (q : Quantity) (c : CartProps),
      Cart.updateItemQuantity cart pid q = .ok c → CartInvariant c) ∧
    (∀ (cart c : CartProps), Cart.clearItems cart = .ok c → CartInvariant c) ∧
    (∀ (cart c : CartProps), Cart.abandon cart = .ok c → CartInvariant c) ∧
    (∀ (cart c : CartProps), Cart.checkout cart = .ok c → CartInvariant c) := by
  exact ⟨fun cartId userId cur c h => Cart.create_invariant h,
    fun props c h => Cart.fromProps_invariant h,
    fun cart props c h => Cart.addItem_invariant h,
    fun cart pid c h => Cart.removeItem_invariant h,
    fun cart pid q c h => Cart.updateItemQuantity_invariant h,
    fun cart c h => Cart.clearItems_invariant h,
    fun cart c h => Cart.abandon_invariant h,
    fun cart c h => Cart.checkout_invariant h⟩

/-- Claim C5, witness: the invariant holds for a freshly created concrete
cart and for the result of a concrete `addItem`. -/
theorem claim_C5_witness :
    CartInvariant (wCart [] .ACTIVE) ∧
    CartInvariant (wCart [wItem "PROD-001" 2 2999] .ACTIVE) := by
  constructor
  · exact claim_C5.1 "cart-1" "user-1" (some .EUR) (wCart [] .ACTIVE) (by decide)
  · exact claim_C5.2.2.1 (wCart [] .ACTIVE) (wItem "PROD-001" 2 2999)
      (wCart [wItem "PROD-001" 2 2999] .ACTIVE) (by decide)
/-- Claim C8 (confirmed): for every cart whose items match the cart
currency and carry the Money/Quantity class invariants (as every TS cart
does by construction), `total` is the sum over all line items of
`lineTotal`, computed in exact integer minor units (`unitPrice` cents ×
quantity per line), and it is `Money.zero` of the cart currency when the
cart is empty.  Concretely, the spec's basic-total scenario — create
cart(EUR), add(PROD-001, qty 2, price 29.99), add(PROD-002, qty 1, price
15.50) — gives `total.amount = 75.48` and `itemCount = 3`. -/
theorem claim_C8 (cart : CartProps)
    (hcur : ∀ i ∈ cart.items, i.unitPrice.currency = cart.currency)
    (hval : ∀ i ∈ cart.items, 0 ≤ i.unitPrice.cents ∧ 0 ≤ i.quantity.value) :
    Cart.total cart = .ok { cents := sumLineCents cart.items, currency := cart.currency } ∧
    (cart.items = [] → Cart.total cart = .ok (Money.zero cart.currency)) ∧
    (scenarioC8 >>= Cart.total) = .ok { cents := 7548, currency := .EUR } ∧
    Except.map Money.amount (scenarioC8 >>= Cart.total) = .ok (75.48 : ℚ) ∧
    Except.map Cart.itemCount scenarioC8 = .ok 3 := by
  have hscen : (scenarioC8 >>= Cart.total) = .ok { cents := 7548, currency := .EUR } := by
    rw [scenarioC8_eval]
    simp only [except_ok_bind]
    have ht := Cart.total_eq cartC8 (by decide) (by decide)
    rw [ht]
    decide
  refine ⟨Cart.total_eq cart hcur hval, ?_, hscen, ?_, ?_⟩
  · intro h
    unfold Cart.total
    simp [h]
  · rw [hscen]
    show Except.ok (Money.amount { cents := 7548, currency := .EUR }) = _
    unfold Money.amount
    norm_num
  · rw [scenarioC8_eval]
    decide

/-- Claim C8, witness: the claim applied to the concrete scenario cart and
to the empty cart. -/
theorem claim_C8_witness :
    Cart.total cartC8 = .ok { cents := sumLineCents cartC8.items, currency := .EUR } ∧
    Cart.total (wCart [] .ACTIVE) = .ok (Money.zero .EUR) := by
  constructor
  · exact (claim_C8 cartC8 (by decide) (by decide)).1
  · exact (claim_C8 (wCart [] .ACTIVE) (by decide) (by decide)).2.1 (by decide)
